import Mathlib

/-!
Shallow embedding of `src/main.py` (strategy class `Crypto_BBands_v2`).

The trading-platform library (lumibot) is an external collaborator: price,
position and portfolio lookups are modelled as fields of an abstract
`Gateway` state, and order submission / sleeping / charting calls are
modelled as an emitted trace of `Event`s.  Python floats are embedded as
`ℚ`; Python `int` as `ℤ`.  A Python runtime error that the code can raise
(comparing or dividing `None`, dividing by zero) is modelled with `Except
PyErr`.  The indicator computations (pandas_ta bollinger bands, `ewm`
EMAs, lines 92-122 of main.py) are external-library numerics whose latest
scalar outputs feed the decision logic; they enter the model as the
`IterInputs` record, exactly the five scalars the decision code reads.
-/

namespace CryptoBBands

/-- `lumibot.entities.Asset`: symbol plus asset class (main.py uses
`Asset("BTC", asset_type="crypto")` etc.). -/
structure Asset where
  symbol : String
  asset_type : String
deriving DecidableEq, Repr

/-- Order side, the `"buy"` / `"sell"` strings of `create_order`. -/
inductive Side
  | buy
  | sell
deriving DecidableEq, Repr

/-- An order as built by `create_order(asset, quantity, side)`. -/
structure Order where
  asset : Asset
  quantity : ℚ
  side : Side
deriving DecidableEq, Repr

/-- Observable gateway effects of the two sub-operations, in program
order: `submit_order`, `submit_orders`, `sell_all`, `self.sleep(5)` and
the chart markers. -/
inductive Event
  | submit_order (o : Order)
  | submit_orders (os : List Order)
  | sell_all
  | sleep (seconds : ℚ)
  | add_marker (tag : String)
deriving DecidableEq, Repr

/-- Python runtime errors the unguarded arithmetic can raise:
`TypeError` from using `None` in a comparison or a division, and
`ZeroDivisionError` from dividing by `0.0`. -/
inductive PyErr
  | typeError
  | zeroDivisionError
deriving DecidableEq, Repr

/-- Abstract state of the execution/market-data gateway at the moment a
sub-operation runs: `get_position` (quantity or `None`),
`get_last_price` (price or `None`) and `get_portfolio_value()`. -/
structure Gateway where
  positions : Asset → Option ℚ
  last_price : Asset → Option ℚ
  portfolio_value : ℚ

/-- Python's `x / p` where `p` came from `get_last_price`: `TypeError`
if `p` is `None`, `ZeroDivisionError` if `p == 0`, else true division. -/
def pyDiv (x : ℚ) (p : Option ℚ) : Except PyErr ℚ :=
  match p with
  | none => Except.error PyErr.typeError
  | some q => if q = 0 then Except.error PyErr.zeroDivisionError else Except.ok (x / q)

/-- Python's `x // p` (float floor division) with the same `None`/zero
behaviour; the result is the floor, as a numeric value. -/
def pyFloorDiv (x : ℚ) (p : Option ℚ) : Except PyErr ℚ :=
  match p with
  | none => Except.error PyErr.typeError
  | some q => if q = 0 then Except.error PyErr.zeroDivisionError else Except.ok ((⌊x / q⌋ : ℤ) : ℚ)

/-- Decidable equality for `Except`, so concrete runs of the embedded
operations can be checked by `decide`. -/
instance {e a : Type} [DecidableEq e] [DecidableEq a] : DecidableEq (Except e a) := fun x y =>
  match x, y with
  | Except.ok u, Except.ok v =>
      if h : u = v then Decidable.isTrue (congrArg Except.ok h)
      else Decidable.isFalse (fun hc => h (Except.ok.inj hc))
  | Except.error u, Except.error v =>
      if h : u = v then Decidable.isTrue (congrArg Except.error h)
      else Decidable.isFalse (fun hc => h (Except.error.inj hc))
  | Except.ok _, Except.error _ => Decidable.isFalse (fun hc => Except.noConfusion hc)
  | Except.error _, Except.ok _ => Decidable.isFalse (fun hc => Except.noConfusion hc)

/-- The `parameters` dictionary of `Crypto_BBands_v2` (main.py lines 48-58). -/
structure Params where
  asset : Asset
  secondary_asset : Asset
  bbands_length_days : ℤ
  fixed_income_symbol : String
  slow_ema_length_days : ℤ
  fast_ema_length_days : ℤ
  days_length_supertrend : ℤ
deriving DecidableEq, Repr

/-- The concrete parameter values of main.py lines 48-58. -/
def default_parameters : Params :=
  { asset := ⟨"BTC", "crypto"⟩
    secondary_asset := ⟨"ETH", "crypto"⟩
    bbands_length_days := 20
    fixed_income_symbol := "USFR"
    slow_ema_length_days := 50
    fast_ema_length_days := 20
    days_length_supertrend := 5 }

/-- The five indicator scalars `on_trading_iteration` reads after the
external indicator computations (main.py lines 90, 108-109, 121-122).
`current_price` comes from `get_last_price` and may be `None`. -/
structure IterInputs where
  current_price : Option ℚ
  current_upper : ℚ
  current_lower : ℚ
  current_fast_ema : ℚ
  current_slow_ema : ℚ
deriving DecidableEq, Repr

/-- Sub-operation invocations made by `on_trading_iteration`:
`self.buy_asset(asset, fixed_income_symbol, pct)` and
`self.sell_asset(asset, fixed_income_symbol)`. -/
inductive SubOp
  | buy_call (asset : Asset) (fixed_income_symbol : String) (pct_portfolio_to_use : ℚ)
  | sell_call (asset : Asset) (fixed_income_symbol : String)
deriving DecidableEq, Repr

/-- The trend-detection update of `supertrend_counter` (main.py lines
131-137): increment when `current_fast_ema > current_slow_ema`, else
reset to 0. -/
def updateCounter (current_fast_ema current_slow_ema : ℚ) (supertrend_counter : ℤ) : ℤ :=
  if current_fast_ema > current_slow_ema then supertrend_counter + 1 else 0

/-- The decision logic of `on_trading_iteration` (main.py lines 131-183):
first the counter update, then the strict-priority branch chain.  The
result is the updated counter (mutated before any branch can raise)
paired with the list of sub-operation calls made, or the Python error
raised.  When `current_price` is `None` and control reaches the
`current_price < current_lower` comparison (line 163), Python raises a
`TypeError`; the supertrend branch returns early (line 151) and the
first-iteration branch (line 154) never evaluates that comparison. -/
def on_trading_iteration (p : Params) (first_iteration : Bool) (inp : IterInputs)
    (supertrend_counter : ℤ) : ℤ × Except PyErr (List SubOp) :=
  let counter' := updateCounter inp.current_fast_ema inp.current_slow_ema supertrend_counter
  let calls : Except PyErr (List SubOp) :=
    if counter' > p.days_length_supertrend then
      Except.ok [SubOp.buy_call p.asset p.fixed_income_symbol 0.45,
                 SubOp.buy_call p.secondary_asset p.fixed_income_symbol 0.45]
    else if first_iteration then
      Except.ok [SubOp.buy_call p.asset p.fixed_income_symbol 0.9]
    else
      match inp.current_price with
      | none => Except.error PyErr.typeError
      | some current_price =>
        if current_price < inp.current_lower then
          Except.ok [SubOp.buy_call p.asset p.fixed_income_symbol 0.9]
        else if current_price > inp.current_upper then
          Except.ok [SubOp.sell_call p.asset p.fixed_income_symbol]
        else
          Except.ok []
  (counter', calls)

/-- The `supertrend_counter` value after `n` iterations, starting from
the `initialize` value 0 (main.py line 65), where iteration `i` observes
fast EMA `fast i` and slow EMA `slow i`. -/
def counterAfter (fast slow : ℕ → ℚ) : ℕ → ℤ
  | 0 => 0
  | n + 1 => updateCounter (fast n) (slow n) (counterAfter fast slow n)

/-- `Crypto_BBands_v2.buy_asset` (main.py lines 185-226): no-op when a
position in `asset` exists; otherwise sell any fixed-income position and
sleep 5, then buy `portfolio_value * pct / last_price` shares when that
quantity is positive. -/
def buy_asset (gw : Gateway) (asset : Asset) (fixed_income_symbol : String)
    (pct_portfolio_to_use : ℚ) : Except PyErr (List Event) :=
  match gw.positions asset with
  | some _ => Except.ok []
  | none =>
    let fixed_income_asset : Asset := ⟨fixed_income_symbol, "stock"⟩
    let liquidation : List Event :=
      match gw.positions fixed_income_asset with
      | some fq => [Event.submit_order ⟨fixed_income_asset, fq, Side.sell⟩, Event.sleep 5]
      | none => []
    let cash_to_buy := gw.portfolio_value * pct_portfolio_to_use
    match pyDiv cash_to_buy (gw.last_price asset) with
    | Except.error e => Except.error e
    | Except.ok shares_to_buy =>
      if shares_to_buy > 0 then
        Except.ok (liquidation ++
          [Event.submit_orders [⟨asset, shares_to_buy, Side.buy⟩], Event.add_marker "buy"])
      else
        Except.ok liquidation

/-- `Crypto_BBands_v2.sell_asset` (main.py lines 228-259): no-op when no
position in `asset` exists; otherwise `sell_all`, mark, sleep 5, then
buy `portfolio_value // fixed_income_price` units of the fixed-income
asset when that floor quantity is positive. -/
def sell_asset (gw : Gateway) (asset : Asset) (fixed_income_symbol : String) :
    Except PyErr (List Event) :=
  match gw.positions asset with
  | none => Except.ok []
  | some _ =>
    let fixed_income_asset : Asset := ⟨fixed_income_symbol, "stock"⟩
    let cash_to_buy := gw.portfolio_value
    match pyFloorDiv cash_to_buy (gw.last_price fixed_income_asset) with
    | Except.error e => Except.error e
    | Except.ok fixed_income_quantity =>
      if fixed_income_quantity > 0 then
        Except.ok [Event.sell_all, Event.add_marker "sell", Event.sleep 5,
                   Event.submit_order ⟨fixed_income_asset, fixed_income_quantity, Side.buy⟩]
      else
        Except.ok [Event.sell_all, Event.add_marker "sell", Event.sleep 5]

/-- Modelled from the trading-platform gateway contract (external lumibot
code, not under src/): `self.sell_all()` (main.py line 237) takes no asset
argument and liquidates every open position in the portfolio, while a
sell order built by `create_order` touches only its own asset.
`eventLiquidates gw b e` says event `e` sells holdings of asset `b`
against gateway state `gw`. -/
def eventLiquidates (gw : Gateway) (b : Asset) : Event → Bool
  | Event.sell_all => (gw.positions b).isSome
  | Event.submit_order o => decide (o.asset = b) && decide (o.side = Side.sell)
  | Event.submit_orders os => os.any fun o => decide (o.asset = b) && decide (o.side = Side.sell)
  | _ => false

/-- Whether an event trace sells holdings of asset `b` against gateway
state `gw`. -/
def traceLiquidates (gw : Gateway) (evs : List Event) (b : Asset) : Bool :=
  evs.any (eventLiquidates gw b)

/-- Modelled from the spec: the Rebalance Engine of spec §4.2 has no code
under src/ (src/main.py contains only the Signal Engine), so its counter
logic is taken from the spec's words: "If counter is uninitialized OR
equals the configured rebalance period: reset to 0 and execute a
rebalance pass; otherwise log a wait message.  Increment counter
unconditionally at the end of the iteration."  `none` is the
uninitialized sentinel; the result is (whether a rebalance pass fired,
the counter value at the end of the iteration). -/
def rebalance_iteration (period : ℤ) (counter : Option ℤ) : Bool × ℤ :=
  match counter with
  | none => (true, 0 + 1)
  | some c => if c = period then (true, 0 + 1) else (false, c + 1)

/-- Modelled from the spec: the rebalance counter as seen at the start of
iteration `n` (0-indexed), starting uninitialized. -/
def rebalanceState (period : ℤ) : ℕ → Option ℤ
  | 0 => none
  | n + 1 => some (rebalance_iteration period (rebalanceState period n)).2

/-- Modelled from the spec: whether a rebalance pass fires at iteration
`n`. -/
def rebalanceFires (period : ℤ) (n : ℕ) : Bool :=
  (rebalance_iteration period (rebalanceState period n)).1

/-- Example gateway states and EMA sequences used by the witness
theorems below. -/
def gwHolding : Gateway :=
  { positions := fun a => if a = ⟨"BTC", "crypto"⟩ then some 1 else none
    last_price := fun a => if a = ⟨"USFR", "stock"⟩ then some 2 else none
    portfolio_value := 5 }

def gwFresh : Gateway :=
  { positions := fun a => if a = ⟨"USFR", "stock"⟩ then some 3 else none
    last_price := fun a => if a = ⟨"BTC", "crypto"⟩ then some 2 else none
    portfolio_value := 10 }

def gwBoth : Gateway :=
  { positions := fun a =>
      if a = ⟨"BTC", "crypto"⟩ then some 1
      else if a = ⟨"ETH", "crypto"⟩ then some 2
      else none
    last_price := fun a => if a = ⟨"USFR", "stock"⟩ then some 2 else none
    portfolio_value := 5 }

def gwNoPrice : Gateway :=
  { positions := fun _ => none
    last_price := fun _ => none
    portfolio_value := 10 }

def gwZeroPrice : Gateway :=
  { positions := fun a => if a = ⟨"BTC", "crypto"⟩ then some 1 else none
    last_price := fun _ => some 0
    portfolio_value := 10 }

def streakFastEx : ℕ → ℚ := fun i => if i < 3 then 1 else 0

def streakSlowEx : ℕ → ℚ := fun _ => 0

/-- Claim C1: whenever, after the trend-detection update, the supertrend
counter strictly exceeds `days_length_supertrend`, the iteration invokes
the buy sub-operation for the primary asset with weight 0.45 and then for
the secondary asset with weight 0.45, and performs none of the other
decision branches. -/
theorem supertrend_branch_buys_both_assets (p : Params) (first_iteration : Bool)
    (inp : IterInputs) (c : ℤ)
    (h : p.days_length_supertrend < updateCounter inp.current_fast_ema inp.current_slow_ema c) :
    on_trading_iteration p first_iteration inp c =
      (updateCounter inp.current_fast_ema inp.current_slow_ema c,
       Except.ok [SubOp.buy_call p.asset p.fixed_income_symbol 0.45,
                  SubOp.buy_call p.secondary_asset p.fixed_income_symbol 0.45]) := by
  simp [on_trading_iteration, h]

/-- Witness for C1 at a concrete input: counter 5, fast EMA above slow,
so the updated counter 6 exceeds the threshold 5 of the default
parameters; only the two 45% buy calls are made (the `none` price shows
the band comparisons are never reached). -/
theorem supertrend_branch_buys_both_assets_witness :
    on_trading_iteration default_parameters false
      { current_price := none, current_upper := 1, current_lower := 0,
        current_fast_ema := 2, current_slow_ema := 1 } 5 =
      (6, Except.ok [SubOp.buy_call ⟨"BTC", "crypto"⟩ "USFR" 0.45,
                     SubOp.buy_call ⟨"ETH", "crypto"⟩ "USFR" 0.45]) := by
  have h := supertrend_branch_buys_both_assets default_parameters false
      { current_price := none, current_upper := 1, current_lower := 0,
        current_fast_ema := 2, current_slow_ema := 1 } 5
      (by norm_num [updateCounter, default_parameters])
  simpa [updateCounter, default_parameters] using h

/-- Claim C2: starting from `supertrend_counter = 0`, if the first `k`
iterations have fast EMA strictly above slow EMA and the `(k+1)`-th does
not, the counter equals `k` after the `k`-th iteration and 0 after the
`(k+1)`-th; a single iteration increments by 1 when fast EMA > slow EMA
and resets to 0 otherwise. -/
theorem supertrend_counter_streak (fast slow : ℕ → ℚ) (k : ℕ)
    (hup : ∀ i, i < k → fast i > slow i) (hdown : ¬ fast k > slow k) :
    (counterAfter fast slow k = k ∧ counterAfter fast slow (k + 1) = 0) ∧
      ∀ (f s : ℚ) (c : ℤ),
        (f > s → updateCounter f s c = c + 1) ∧ (¬ f > s → updateCounter f s c = 0) := by
  have hk : ∀ m, m ≤ k → counterAfter fast slow m = m := by
    intro m hm
    induction m with
    | zero => rfl
    | succ n ih =>
      have hn : n < k := hm
      rw [counterAfter, updateCounter, if_pos (hup n hn), ih (le_of_lt hn)]
      push_cast
      ring
  refine ⟨⟨hk k le_rfl, ?_⟩, ?_⟩
  · rw [counterAfter, updateCounter, if_neg hdown]
  · intro f s c
    exact ⟨fun h => by simp [updateCounter, h], fun h => by simp [updateCounter, h]⟩

/-- Witness for C2 at `k = 3` with a concrete EMA sequence that is in
trend for exactly the first three iterations. -/
theorem supertrend_counter_streak_witness :
    counterAfter streakFastEx streakSlowEx 3 = 3 ∧
      counterAfter streakFastEx streakSlowEx 4 = 0 := by
  have h := supertrend_counter_streak streakFastEx streakSlowEx 3
      (by intro i hi; simp [streakFastEx, streakSlowEx, hi])
      (by norm_num [streakFastEx, streakSlowEx])
  exact ⟨h.1.1, h.1.2⟩

/-- Claim C9: `supertrend_counter` is non-negative in every reachable
state: it starts at 0 and each iteration either increments it by exactly
1 or resets it to 0. -/
theorem supertrend_counter_nonneg (fast slow : ℕ → ℚ) (n : ℕ) :
    0 ≤ counterAfter fast slow n ∧
      (counterAfter fast slow (n + 1) = counterAfter fast slow n + 1 ∨
       counterAfter fast slow (n + 1) = 0) := by
  constructor
  · induction n with
    | zero => simp [counterAfter]
    | succ m ih =>
      rw [counterAfter, updateCounter]
      split
      · omega
      · exact le_refl 0
  · rw [counterAfter, updateCounter]
    split
    · exact Or.inl rfl
    · exact Or.inr rfl

/-- Claim C3 as amended: the sell sub-operation is a no-op when the
gateway reports no position in the asset; otherwise it liquidates the
entire portfolio — every open position, via the gateway's `sell_all`
primitive, not only the given asset — waits for settlement, computes the
fixed-income quantity as the integer floor of all resulting cash divided
by the fixed-income price, and submits a buy for it exactly when it is
strictly positive. -/
theorem sell_asset_behavior (gw : Gateway) (a : Asset) (fis : String) :
    (gw.positions a = none → sell_asset gw a fis = Except.ok []) ∧
    (∀ q fp : ℚ, gw.positions a = some q → gw.last_price ⟨fis, "stock"⟩ = some fp →
      fp ≠ 0 →
      sell_asset gw a fis =
        Except.ok ([Event.sell_all, Event.add_marker "sell", Event.sleep 5] ++
          (if ((⌊gw.portfolio_value / fp⌋ : ℤ) : ℚ) > 0 then
             [Event.submit_order
                ⟨⟨fis, "stock"⟩, ((⌊gw.portfolio_value / fp⌋ : ℤ) : ℚ), Side.buy⟩]
           else [])) ∧
      ∀ (evs : List Event) (b : Asset), sell_asset gw a fis = Except.ok evs →
        (gw.positions b).isSome = true → traceLiquidates gw evs b = true) := by
  constructor
  · intro hpos
    simp [sell_asset, hpos]
  · intro q fp hpos hfp hfp0
    have htr : sell_asset gw a fis =
        Except.ok ([Event.sell_all, Event.add_marker "sell", Event.sleep 5] ++
          (if ((⌊gw.portfolio_value / fp⌋ : ℤ) : ℚ) > 0 then
             [Event.submit_order
                ⟨⟨fis, "stock"⟩, ((⌊gw.portfolio_value / fp⌋ : ℤ) : ℚ), Side.buy⟩]
           else [])) := by
      simp only [sell_asset, hpos, hfp, pyFloorDiv, if_neg hfp0]
      split <;> simp
    refine ⟨htr, ?_⟩
    intro evs b hevs hb
    rw [htr] at hevs
    have hlist := Except.ok.inj hevs
    rw [← hlist]
    simp [traceLiquidates, eventLiquidates, hb]

/-- Counterexample to C3 as frozen: its "and only that asset" clause
fails.  `gwBoth` holds positions in both BTC and ETH; `sell_asset` for
BTC emits `sell_all` (main.py line 237), which liquidates the ETH
position as well, though ETH is a different asset from the one the sell
sub-operation was called for. -/
theorem sell_asset_liquidates_other_positions :
    gwBoth.positions ⟨"ETH", "crypto"⟩ = some 2 ∧
    (⟨"ETH", "crypto"⟩ : Asset) ≠ (⟨"BTC", "crypto"⟩ : Asset) ∧
    sell_asset gwBoth ⟨"BTC", "crypto"⟩ "USFR" =
      Except.ok [Event.sell_all, Event.add_marker "sell", Event.sleep 5,
                 Event.submit_order ⟨⟨"USFR", "stock"⟩, 2, Side.buy⟩] ∧
    traceLiquidates gwBoth
      [Event.sell_all, Event.add_marker "sell", Event.sleep 5,
       Event.submit_order ⟨⟨"USFR", "stock"⟩, 2, Side.buy⟩] ⟨"ETH", "crypto"⟩ = true := by
  refine ⟨by simp [gwBoth], by simp, ?_, by simp [traceLiquidates, eventLiquidates, gwBoth]⟩
  norm_num [sell_asset, gwBoth, pyFloorDiv]

/-- Witness for amended C3: a gateway holding BTC with portfolio value 5
and fixed-income price 2 sells all, sleeps, and buys `5 // 2 = 2` units. -/
theorem sell_asset_behavior_witness :
    sell_asset gwHolding ⟨"BTC", "crypto"⟩ "USFR" =
      Except.ok [Event.sell_all, Event.add_marker "sell", Event.sleep 5,
                 Event.submit_order ⟨⟨"USFR", "stock"⟩, 2, Side.buy⟩] := by
  have h := ((sell_asset_behavior gwHolding ⟨"BTC", "crypto"⟩ "USFR").2 1 2
      (by simp [gwHolding]) (by simp [gwHolding]) (by norm_num)).1
  rw [h]
  norm_num [gwHolding]

/-- Claim C4: a buy sub-operation call that finds an existing position in
the target asset is a no-op producing zero orders, whatever the requested
weight; hence a second buy directly after a completed buy of the same
asset (whose position the gateway now reports) produces no further
orders. -/
theorem buy_asset_existing_position_noop (gw : Gateway) (a : Asset) (fis : String)
    (w q : ℚ) (hpos : gw.positions a = some q) :
    buy_asset gw a fis w = Except.ok [] := by
  simp [buy_asset, hpos]

/-- Witness for C4: a gateway already holding BTC makes the buy a no-op. -/
theorem buy_asset_existing_position_noop_witness :
    buy_asset gwHolding ⟨"BTC", "crypto"⟩ "USFR" 0.9 = Except.ok [] :=
  buy_asset_existing_position_noop gwHolding ⟨"BTC", "crypto"⟩ "USFR" 0.9 1
    (by simp [gwHolding])

/-- Claim C5: a buy sub-operation call with no existing position in the
target asset first fully liquidates any fixed-income position followed by
the settlement sleep, computes the quantity
`portfolio_value * weight / current_price`, and submits a buy exactly
when that quantity is strictly positive. -/
theorem buy_asset_fresh_behavior (gw : Gateway) (a : Asset) (fis : String)
    (w pr : ℚ) (hpos : gw.positions a = none) (hpr : gw.last_price a = some pr)
    (hpr0 : pr ≠ 0) :
    buy_asset gw a fis w =
      Except.ok
        ((match gw.positions ⟨fis, "stock"⟩ with
          | some fq => [Event.submit_order ⟨⟨fis, "stock"⟩, fq, Side.sell⟩, Event.sleep 5]
          | none => []) ++
         (if gw.portfolio_value * w / pr > 0 then
            [Event.submit_orders [⟨a, gw.portfolio_value * w / pr, Side.buy⟩],
             Event.add_marker "buy"]
          else [])) := by
  simp only [buy_asset, hpos, hpr, pyDiv, if_neg hpr0]
  cases gw.positions ⟨fis, "stock"⟩ with
  | none => split <;> simp
  | some fq => split <;> simp

/-- Witness for C5: a fresh gateway holding 3 units of the fixed-income
asset, portfolio value 10, BTC price 2, weight 0.9: the fixed-income
position is sold first, then 4.5 BTC are bought. -/
theorem buy_asset_fresh_behavior_witness :
    buy_asset gwFresh ⟨"BTC", "crypto"⟩ "USFR" 0.9 =
      Except.ok [Event.submit_order ⟨⟨"USFR", "stock"⟩, 3, Side.sell⟩, Event.sleep 5,
                 Event.submit_orders [⟨⟨"BTC", "crypto"⟩, 9/2, Side.buy⟩],
                 Event.add_marker "buy"] := by
  have h := buy_asset_fresh_behavior gwFresh ⟨"BTC", "crypto"⟩ "USFR" 0.9 2
      (by simp [gwFresh]) (by simp [gwFresh]) (by norm_num)
  rw [h]
  norm_num [gwFresh]

/-- Claim C6: when the supertrend branch does not fire, branches b-e are
evaluated in strict priority order and exactly one executes: the
first-iteration 90% buy, else a 90% buy when price < lower band, else the
sell path when price > upper band, else nothing; in particular with the
price strictly below the lower band the buy path is taken and no sell
call is made in that iteration. -/
theorem branch_priority_exclusive (p : Params) (first_iteration : Bool)
    (inp : IterInputs) (c : ℤ)
    (hsup : ¬ updateCounter inp.current_fast_ema inp.current_slow_ema c >
        p.days_length_supertrend) :
    (first_iteration = true →
       (on_trading_iteration p first_iteration inp c).2 =
         Except.ok [SubOp.buy_call p.asset p.fixed_income_symbol 0.9]) ∧
    (first_iteration = false →
       ∀ pr : ℚ, inp.current_price = some pr →
         (pr < inp.current_lower →
            (on_trading_iteration p first_iteration inp c).2 =
              Except.ok [SubOp.buy_call p.asset p.fixed_income_symbol 0.9] ∧
            ∀ l, (on_trading_iteration p first_iteration inp c).2 = Except.ok l →
              ∀ (b : Asset) (s : String), SubOp.sell_call b s ∉ l) ∧
         (¬ pr < inp.current_lower → pr > inp.current_upper →
            (on_trading_iteration p first_iteration inp c).2 =
              Except.ok [SubOp.sell_call p.asset p.fixed_income_symbol]) ∧
         (¬ pr < inp.current_lower → ¬ pr > inp.current_upper →
            (on_trading_iteration p first_iteration inp c).2 = Except.ok [])) := by
  constructor
  · intro hfi
    simp [on_trading_iteration, hsup, hfi]
  · intro hfi pr hpr
    refine ⟨fun hlt => ⟨?_, ?_⟩, fun hnlt hgt => ?_, fun hnlt hngt => ?_⟩
    · simp [on_trading_iteration, hsup, hfi, hpr, hlt]
    · intro l hl b s
      simp only [on_trading_iteration, hsup, hfi, hpr] at hl
      simp only [if_neg hsup, Bool.false_eq_true, if_false, if_pos hlt] at hl
      cases hl
      simp
    · simp [on_trading_iteration, hsup, hfi, hpr, hnlt, hgt]
    · simp [on_trading_iteration, hsup, hfi, hpr, hnlt, hngt]

/-- Witness for C6: not the first iteration, price -1 below the lower
band 0, counter not in supertrend: exactly the 90% buy call is made. -/
theorem branch_priority_exclusive_witness :
    (on_trading_iteration default_parameters false
      { current_price := some (-1), current_upper := 1, current_lower := 0,
        current_fast_ema := 0, current_slow_ema := 1 } 0).2 =
      Except.ok [SubOp.buy_call ⟨"BTC", "crypto"⟩ "USFR" 0.9] := by
  have h := ((branch_priority_exclusive default_parameters false
      { current_price := some (-1), current_upper := 1, current_lower := 0,
        current_fast_ema := 0, current_slow_ema := 1 } 0
      (by norm_num [updateCounter, default_parameters])).2 rfl (-1) rfl).1 (by norm_num)
  simpa [default_parameters] using h.1

/-- Claim C7 (code bug): the spec requires a `None` last price for the
primary asset to be treated as missing data and the iteration skipped,
but the code has no guard: when neither the supertrend branch nor the
first-iteration branch fires, `current_price < current_lower` compares
`None` with a float and raises `TypeError` instead of skipping.  This
theorem evaluates the embedded iteration at such an input and shows it
raises rather than completing with no action. -/
theorem none_price_raises_typeerror :
    on_trading_iteration default_parameters false
      { current_price := none, current_upper := 1, current_lower := 0,
        current_fast_ema := 0, current_slow_ema := 1 } 0 =
      (0, Except.error PyErr.typeError) := by
  norm_num [on_trading_iteration, updateCounter, default_parameters]

/-- The rebalance counter observed at the start of iteration `n + 1` is
`n % N + 1` for a positive period `N`. -/
lemma rebalanceState_mod (N : ℕ) (hN : 1 ≤ N) (n : ℕ) :
    rebalanceState (N : ℤ) (n + 1) = some (((n % N : ℕ) : ℤ) + 1) := by
  induction n with
  | zero =>
    simp [rebalanceState, rebalance_iteration, Nat.mod_eq_of_lt hN]
  | succ m ih =>
    rw [rebalanceState, ih]
    simp only [rebalance_iteration]
    have hmod : (m + 1) % N = (m % N + 1) % N := (Nat.mod_add_mod m N 1).symm
    have hlt : m % N < N := Nat.mod_lt m hN
    by_cases h : ((m % N : ℕ) : ℤ) + 1 = (N : ℤ)
    · have hm : m % N + 1 = N := by exact_mod_cast h
      have h0 : (m + 1) % N = 0 := by rw [hmod, hm, Nat.mod_self]
      rw [if_pos h, h0]
      norm_num
    · have hm : m % N + 1 ≠ N := fun hc => h (by exact_mod_cast hc)
      have h1 : (m + 1) % N = m % N + 1 := by
        rw [hmod, Nat.mod_eq_of_lt (lt_of_le_of_ne hlt hm)]
      rw [if_neg h, h1]
      push_cast
      ring_nf

/-- Claim C8: modelled from the spec (the Rebalance Engine has no code
under src/).  Starting uninitialized, the first iteration fires a
rebalance and leaves the counter at 1 (reset to 0, then the unconditional
end-of-iteration increment); the counter is incremented in every
iteration, including firing ones; a rebalance fires exactly when the
counter equals the period, which happens exactly at iterations divisible
by `N`, without drift. -/
theorem rebalance_counter_behavior (N : ℕ) (hN : 1 ≤ N) :
    rebalanceFires (N : ℤ) 0 = true ∧
    rebalanceState (N : ℤ) 1 = some (0 + 1) ∧
    (∀ (n : ℕ) (c : ℤ), rebalanceState (N : ℤ) n = some c →
       rebalanceState (N : ℤ) (n + 1) = some ((if c = (N : ℤ) then 0 else c) + 1) ∧
       (rebalanceFires (N : ℤ) n = true ↔ c = (N : ℤ))) ∧
    (∀ n : ℕ, rebalanceFires (N : ℤ) n = true ↔ N ∣ n) := by
  refine ⟨rfl, rfl, ?_, ?_⟩
  · intro n c hstate
    by_cases h : c = (N : ℤ) <;>
      simp [rebalanceState, rebalanceFires, rebalance_iteration, hstate, h]
  · intro n
    cases n with
    | zero =>
      simp [rebalanceFires, rebalanceState, rebalance_iteration]
    | succ m =>
      have hlt : m % N < N := Nat.mod_lt m hN
      rw [rebalanceFires, rebalanceState_mod N hN m]
      simp only [rebalance_iteration]
      by_cases h : ((m % N : ℕ) : ℤ) + 1 = (N : ℤ)
      · have hm : m % N + 1 = N := by exact_mod_cast h
        have hd : N ∣ m + 1 := by
          rw [Nat.dvd_iff_mod_eq_zero, (Nat.mod_add_mod m N 1).symm, hm, Nat.mod_self]
        rw [if_pos h]
        simp [hd]
      · have hm : m % N + 1 ≠ N := fun hc => h (by exact_mod_cast hc)
        have hd : ¬ N ∣ m + 1 := by
          rw [Nat.dvd_iff_mod_eq_zero, (Nat.mod_add_mod m N 1).symm,
            Nat.mod_eq_of_lt (lt_of_le_of_ne hlt hm)]
          omega
        rw [if_neg h]
        simp [hd]

/-- Witness for C8 with period 10: a rebalance fires at iteration 0 and
again at iteration 10. -/
theorem rebalance_counter_behavior_witness :
    rebalanceFires ((10 : ℕ) : ℤ) 0 = true ∧ rebalanceFires ((10 : ℕ) : ℤ) 10 = true := by
  have h := rebalance_counter_behavior 10 (by norm_num)
  exact ⟨h.1, (h.2.2.2 10).mpr (by norm_num)⟩

/-- Claim C10: the buy and sell sub-operations divide by gateway prices
with no `None`/zero guard; they are total when the respective last price
is strictly positive, and the division raises `TypeError` on a `None`
price and `ZeroDivisionError` on a zero price. -/
theorem price_division_totality :
    (∀ (gw : Gateway) (a : Asset) (fis : String) (w pr : ℚ),
        gw.last_price a = some pr → 0 < pr →
        ∃ evs, buy_asset gw a fis w = Except.ok evs) ∧
    (∀ (gw : Gateway) (a : Asset) (fis : String) (fp : ℚ),
        gw.last_price ⟨fis, "stock"⟩ = some fp → 0 < fp →
        ∃ evs, sell_asset gw a fis = Except.ok evs) ∧
    (∀ (gw : Gateway) (a : Asset) (fis : String) (w : ℚ),
        gw.positions a = none → gw.last_price a = none →
        buy_asset gw a fis w = Except.error PyErr.typeError) ∧
    (∀ (gw : Gateway) (a : Asset) (fis : String) (w : ℚ),
        gw.positions a = none → gw.last_price a = some 0 →
        buy_asset gw a fis w = Except.error PyErr.zeroDivisionError) ∧
    (∀ (gw : Gateway) (a : Asset) (fis : String) (q : ℚ),
        gw.positions a = some q → gw.last_price ⟨fis, "stock"⟩ = none →
        sell_asset gw a fis = Except.error PyErr.typeError) ∧
    (∀ (gw : Gateway) (a : Asset) (fis : String) (q : ℚ),
        gw.positions a = some q → gw.last_price ⟨fis, "stock"⟩ = some 0 →
        sell_asset gw a fis = Except.error PyErr.zeroDivisionError) := by
  refine ⟨?_, ?_, ?_, ?_, ?_, ?_⟩
  · intro gw a fis w pr hpr hpr0
    cases hpos : gw.positions a with
    | some q => exact ⟨[], by simp [buy_asset, hpos]⟩
    | none =>
      simp only [buy_asset, hpos, hpr, pyDiv, if_neg (ne_of_gt hpr0)]
      split
      · exact ⟨_, rfl⟩
      · exact ⟨_, rfl⟩
  · intro gw a fis fp hfp hfp0
    cases hpos : gw.positions a with
    | none => exact ⟨[], by simp [sell_asset, hpos]⟩
    | some q =>
      simp only [sell_asset, hpos, hfp, pyFloorDiv, if_neg (ne_of_gt hfp0)]
      split
      · exact ⟨_, rfl⟩
      · exact ⟨_, rfl⟩
  · intro gw a fis w hpos hpr
    simp [buy_asset, hpos, hpr, pyDiv]
  · intro gw a fis w hpos hpr
    simp [buy_asset, hpos, hpr, pyDiv]
  · intro gw a fis q hpos hfp
    simp [sell_asset, hpos, hfp, pyFloorDiv]
  · intro gw a fis q hpos hfp
    simp [sell_asset, hpos, hfp, pyFloorDiv]

/-- Witness for C10: totality at a positive price, `TypeError` at a
`None` price, `ZeroDivisionError` at a zero fixed-income price. -/
theorem price_division_totality_witness :
    (∃ evs, buy_asset gwFresh ⟨"BTC", "crypto"⟩ "USFR" 0.9 = Except.ok evs) ∧
    buy_asset gwNoPrice ⟨"BTC", "crypto"⟩ "USFR" 0.9 = Except.error PyErr.typeError ∧
    sell_asset gwZeroPrice ⟨"BTC", "crypto"⟩ "USFR" =
      Except.error PyErr.zeroDivisionError := by
  refine ⟨price_division_totality.1 gwFresh ⟨"BTC", "crypto"⟩ "USFR" 0.9 2
      (by simp [gwFresh]) (by norm_num),
    price_division_totality.2.2.1 gwNoPrice ⟨"BTC", "crypto"⟩ "USFR" 0.9
      (by simp [gwNoPrice]) (by simp [gwNoPrice]),
    price_division_totality.2.2.2.2.2 gwZeroPrice ⟨"BTC", "crypto"⟩ "USFR" 1
      (by simp [gwZeroPrice]) (by simp [gwZeroPrice])⟩

end CryptoBBands
